import Mathlib

/-!
Verification development for the qiq-mcp-server repository: a shallow
embedding of the JSON-RPC dispatcher, the WebSocket transport handler,
the Typesense search adapter (both the canonical objectID variant and the
sku/mock variant), the scoring tool and the runtime config controller,
together with theorems settling the specification claims.

JavaScript numbers are modelled by `JNum` (a rational, positive/negative
infinity, or NaN).  Fallible backend calls are modelled by functions
returning `Option`: `none` stands for a thrown error.  `Array.prototype.sort`
is a stable sort, so it is embedded as `List.mergeSort` with the comparator
relation; stability and sortedness are proved from the mergeSort lemmas.
-/

/-- Model of a JavaScript number: finite rational, infinities, or NaN. -/
inductive JNum where
  | fin (q : ℚ)
  | posInf
  | negInf
  | nan
deriving DecidableEq, Repr

/-- `Number.isFinite(v)`. -/
def JNum.isFinite : JNum → Bool
  | .fin _ => true
  | _ => false

/-- JS comparison `v > 0`. -/
def JNum.gtZero : JNum → Bool
  | .fin q => decide (0 < q)
  | .posInf => true
  | _ => false

/-- JS `1 / v` (used in the code only under a `v > 0` guard). -/
def JNum.inv1 : JNum → JNum
  | .fin q => if q = 0 then .posInf else .fin q⁻¹
  | .posInf => .fin 0
  | .negInf => .fin 0
  | .nan => .nan

/-- JS `v || 0`: NaN and 0 are falsy and are replaced by 0. -/
def JNum.orZero : JNum → JNum
  | .nan => .fin 0
  | .fin q => if q = 0 then .fin 0 else .fin q
  | v => v

/-- A JS value read from a `price` field.  `num` is a genuine JS number;
`other` models any non-number value, carrying the result of the host
conversion `Number(value)` on it (the code inspects such values only
through `typeof` and `Number`). -/
inductive JSPrice where
  | num (v : JNum)
  | other (conv : JNum)
deriving DecidableEq, Repr

/-- Embedding of `typeof p.price === 'number' ? p.price : Number(p.price) || 0`
(src/src/mcp.mjs, qiq_scoring and typesense_search normalization). -/
def coercePrice : JSPrice → JNum
  | .num v => v
  | .other c => c.orZero

/-- JS truthiness filter on an optional string: the empty string is falsy. -/
def jsT : Option String → Option String
  | some s => if s = "" then none else some s
  | none => none

/-- First truthy string in a list of optional fields, else `''`
(embedding of JS `a || b || ''` chains). -/
def firstS : List (Option String) → String
  | [] => ""
  | o :: rest =>
    match jsT o with
    | some s => s
    | none => firstS rest

/-- Canonical product record (the `objectID` shape of src/unnamed/part_006),
with the `score` field added by the scoring tool.  The `price` field is a
raw JS value because the scoring tool accepts loosely-typed records. -/
structure Product where
  objectID : String
  name : String
  brand : String
  item_type : String
  category : String
  price : JSPrice
  list_price : JNum
  availability : JNum
  image : String
  spec_sheet : String
  url : String
  score : Option JNum := none
deriving DecidableEq, Repr

/-- `score = price > 0 ? 1 / price : 0` (src/src/mcp.mjs line 260). -/
def jsScore (price : JNum) : JNum :=
  if price.gtZero then price.inv1 else .fin 0

/-- One step of the scoring map:
`{ ...p, price, score }` with the coerced price and computed score. -/
def scoreProduct (p : Product) : Product :=
  let priceNum := coercePrice p.price
  { p with price := .num priceNum, score := some (jsScore priceNum) }

/-- The rational value of `p.score ?? 0` (every score written by
`scoreProduct` is finite; remaining branches are defensive defaults). -/
def scoreQ (p : Product) : ℚ :=
  match p.score with
  | some (.fin q) => q
  | some _ => 0
  | none => 0

/-- Comparator relation of `scored.sort((a, b) => (b.score ?? 0) - (a.score ?? 0))`:
`a` may stay before `b` iff the comparator is ≤ 0, i.e. descending score. -/
def scoreLe (a b : Product) : Bool :=
  decide (scoreQ b ≤ scoreQ a)

/-- The `products` argument of `qiq_scoring`: a JS array of records or any
non-array value. -/
inductive ProductsArg where
  | arr (l : List Product)
  | nonArray
deriving Repr

/-- Embedding of the `qiq_scoring` tool call (src/src/mcp.mjs lines 256-265):
`(Array.isArray(products) ? products : []).map(score).sort(cmp)`.
A missing argument (`none`) takes the destructuring default `[]`.
`Array.prototype.sort` is stable, hence `List.mergeSort`. -/
def qiqScoringCall (products : Option ProductsArg) (_context : Option Unit) :
    List Product :=
  let l := match products with
    | some (.arr l) => l
    | _ => []
  (l.map scoreProduct).mergeSort scoreLe

example : qiqScoringCall none none = [] := by
  simp [qiqScoringCall, List.mergeSort_nil]
example : qiqScoringCall (some .nonArray) none = [] := by
  simp [qiqScoringCall, List.mergeSort_nil]

/-- Hex digit (uppercase) for percent-encoding. -/
def hexDigitU (n : Nat) : Char :=
  if n < 10 then Char.ofNat (48 + n) else Char.ofNat (55 + n)

/-- Hex digit (lowercase) for JSON escapes. -/
def hexDigitL (n : Nat) : Char :=
  if n < 10 then Char.ofNat (48 + n) else Char.ofNat (87 + n)

/-- JS `String.prototype.trim` (whitespace model: space, tab, CR, LF). -/
def jsTrim (s : String) : String :=
  String.mk
    (((s.data.dropWhile Char.isWhitespace).reverse.dropWhile
      Char.isWhitespace).reverse)

/-- JS `String.prototype.toLowerCase` (ASCII case mapping). -/
def jsToLower (s : String) : String :=
  String.mk (s.data.map Char.toLower)

/-- Characters left unescaped by `encodeURIComponent`:
A-Z a-z 0-9 - _ . ! ~ * ' ( ). -/
def isUnreservedURIChar (c : Char) : Bool :=
  c.isAlpha || c.isDigit ||
    [45, 95, 46, 33, 126, 42, 39, 40, 41].contains c.toNat

/-- UTF-8 bytes of a code point. -/
def utf8Bytes (n : Nat) : List Nat :=
  if n < 128 then [n]
  else if n < 2048 then [192 + n / 64, 128 + n % 64]
  else if n < 65536 then [224 + n / 4096, 128 + (n / 64) % 64, 128 + n % 64]
  else [240 + n / 262144, 128 + (n / 4096) % 64, 128 + (n / 64) % 64,
    128 + n % 64]

/-- Percent-encoding of one byte. -/
def percentByte (b : Nat) : String :=
  "%" ++ String.mk [hexDigitU (b / 16), hexDigitU (b % 16)]

/-- ECMAScript `encodeURIComponent`: unreserved characters pass through,
everything else is percent-encoded as UTF-8 bytes. -/
def encodeURIComponent (s : String) : String :=
  s.data.foldl
    (fun acc c =>
      if isUnreservedURIChar c then acc.push c
      else acc ++ (utf8Bytes c.toNat).foldl (fun a b => a ++ percentByte b) "")
    ""

/-- JSON string escape for one character, as in `JSON.stringify`. -/
def jsonEscapeChar (c : Char) : String :=
  if c = '"' then "\\\""
  else if c = '\\' then "\\\\"
  else if c.toNat = 8 then "\\b"
  else if c.toNat = 9 then "\\t"
  else if c.toNat = 10 then "\\n"
  else if c.toNat = 12 then "\\f"
  else if c.toNat = 13 then "\\r"
  else if c.toNat < 32 then
    "\\u00" ++ String.mk [hexDigitL (c.toNat / 16), hexDigitL (c.toNat % 16)]
  else String.singleton c

/-- `JSON.stringify` of a string value. -/
def jsonQuote (s : String) : String :=
  "\"" ++ s.data.foldl (fun acc c => acc ++ jsonEscapeChar c) "" ++ "\""

/-- Drop a leading and a trailing run of character `c`
(the regex `/^c+|c+$/g`). -/
def stripEdges (c : Char) (s : String) : String :=
  String.mk (((s.data.dropWhile (· = c)).reverse.dropWhile (· = c)).reverse)

/-- `sanitize` from src/src/mcp.mjs lines 79-85: trim, strip wrapping
double-quote runs, strip wrapping single-quote runs, trim again. -/
def sanitize (v : String) : String :=
  jsTrim (stripEdges (Char.ofNat 39) (stripEdges '"' (jsTrim v)))

example : sanitize " \"abc\" " = "abc" := by decide
example : encodeURIComponent "a b" = "a%20b" := by decide
example : jsonQuote "a\"b" = "\"a\\\"b\"" := by decide

/-- A backend document as seen by src/unnamed/part_006.  String fields are
optional; numeric fields store the result of the host conversion
`Number(rec?.field)` (a missing field converts to NaN). -/
structure TSDoc where
  objectID : Option String := none
  object_id : Option String := none
  id : Option String := none
  mpn : Option String := none
  manufacturer_part_number : Option String := none
  vendor_mpn : Option String := none
  sku : Option String := none
  mpn_normalized : Option String := none
  name : Option String := none
  brand : Option String := none
  item_type : Option String := none
  category : Option String := none
  price : JNum := .nan
  list_price : JNum := .nan
  availability : JNum := .nan
  image : Option String := none
  spec_sheet : Option String := none
deriving DecidableEq, Repr

/-- The empty JS object `{}` used for `hit?.document || {}`. -/
def emptyDoc : TSDoc := {}

/-- A Typesense search request as issued by the adapter. -/
structure SearchQuery where
  q : String
  query_by : String
  per_page : Nat
  filter_by : Option String := none
deriving DecidableEq, Repr

/-- One hit of a Typesense search response (`hits[i].document` may be
absent). -/
structure THit where
  document : Option TSDoc := none
deriving DecidableEq, Repr

/-- The backend search oracle: `none` models a thrown error, `some hits`
a successful response (with `res?.hits || []` already folded in). -/
def Backend : Type := SearchQuery → Option (List THit)

/-- `Number.isFinite(Number(x)) ? Number(x) : 0`. -/
def finOr0 (v : JNum) : ℚ :=
  match v with
  | .fin q => q
  | _ => 0

/-- `mapRecord` of src/unnamed/part_006 lines 182-208: normalize a backend
document into the canonical product shape. -/
def mapRecord (rec : TSDoc) : Product :=
  let oid := firstS [rec.objectID, rec.object_id]
  { objectID := oid
    name := firstS [rec.name]
    brand := firstS [rec.brand]
    item_type := firstS [rec.item_type]
    category := firstS [rec.category]
    price := .num (.fin (finOr0 rec.price))
    list_price := .fin (finOr0 rec.list_price)
    availability := .fin (finOr0 rec.availability)
    image := firstS [rec.image]
    spec_sheet := firstS [rec.spec_sheet]
    url := "https://quickitquote.com/catalog/" ++ encodeURIComponent oid
    score := none }

/-- The placeholder document `{ objectID: oid }` synthesized for an
unresolved identifier (part_006 line 264). -/
def placeholderDoc (oid : String) : TSDoc :=
  { objectID := some oid }

/-- Deduplication of identifiers (part_006 lines 212-218): merge
`objectIDs` and `objectID`, drop falsy entries, trim, lowercase, then
deduplicate keeping the first occurrence (JS `Array.from(new Set(...))`).
The source block also contains a superseded leftover redeclaration of
`ids` on line 219 from an earlier revision; the embedding follows the
deduplicating declaration, which the rest of the block and the spec rely
on. -/
def dedupAux : List String → List String → List String
  | [], acc => acc.reverse
  | x :: xs, acc =>
    if x ∈ acc then dedupAux xs acc else dedupAux xs (x :: acc)

/-- First-occurrence deduplication (insertion order of a JS `Set`). -/
def dedupFirst (l : List String) : List String :=
  dedupAux l []

/-- The deduplicated, trimmed, lowercased identifier list. -/
def dedupIds (objectIDs : Option (List String)) (objectID : Option String) :
    List String :=
  let merged := (objectIDs.getD []) ++ objectID.toList
  dedupFirst ((merged.filter (· ≠ "")).map (fun v => jsToLower (jsTrim v)))

/-- `query_by` used by the identifier path:
`queryBy.length > 0 ? queryBy.join(',') : 'name,brand,category'`. -/
def queryByStr (envQB : List String) : String :=
  if envQB ≠ [] then String.intercalate "," envQB else "name,brand,category"

/-- The batch filter value: ids quoted and comma-joined (the source's
`id.replace(/"/g, '\"')` replaces a double quote by itself, hence is the
identity). -/
def filterValue (ids : List String) : String :=
  String.intercalate "," (ids.map (fun i => "\"" ++ i ++ "\""))

/-- The five candidate batch filters, tried in order (part_006 224-230). -/
def candFilters (ids : List String) : List String :=
  ["objectID", "object_id", "id", "mpn", "manufacturer_part_number"].map
    (fun f => f ++ ":=[" ++ filterValue ids ++ "]")

/-- The batch-lookup loop (part_006 lines 231-246): stop at the first
successful nonempty response; on success-with-empty remember the empty
list; on a thrown error keep the previous value. -/
def batchHitsLoop (b : Backend) (qb : String) (pp : Nat) (acc : List THit) :
    List String → List THit
  | [] => acc
  | f :: rest =>
    match b { q := "*", query_by := qb, per_page := pp, filter_by := some f }
    with
    | some hits =>
      if hits ≠ [] then hits else batchHitsLoop b qb pp hits rest
    | none => batchHitsLoop b qb pp acc rest

/-- The candidate fields of the per-identifier fallback lookup
(part_006 lines 249-251). -/
def fallbackFields : List String :=
  ["objectID", "object_id", "id", "mpn", "manufacturer_part_number",
   "vendor_mpn", "sku", "mpn_normalized"]

/-- The query issued by `fallbackLookup` for field `f` and identifier
`oid`. -/
def fbQuery (qb f oid : String) : SearchQuery :=
  { q := "*", query_by := qb, per_page := 1,
    filter_by := some (f ++ ":=" ++ jsonQuote oid) }

/-- The field loop of `fallbackLookup` (part_006 lines 248-265): first
field whose query succeeds with a present first-hit document wins; else
the placeholder record. -/
def fallbackLoop (b : Backend) (qb oid : String) : List String → Product
  | [] => mapRecord (placeholderDoc oid)
  | f :: rest =>
    match b (fbQuery qb f oid) with
    | some hs =>
      match hs.head? with
      | some h =>
        match h.document with
        | some d => mapRecord d
        | none => fallbackLoop b qb oid rest
      | none => fallbackLoop b qb oid rest
    | none => fallbackLoop b qb oid rest

/-- `fallbackLookup(oid)`. -/
def fallbackLookup (b : Backend) (qb oid : String) : Product :=
  fallbackLoop b qb oid fallbackFields

/-- Lowercased truthy field value, else `''`
(`d.f ? String(d.f).toLowerCase() : ''`). -/
def lowerOr (o : Option String) : String :=
  match jsT o with
  | some s => jsToLower s
  | none => ""

/-- The batch-hit matching test (part_006 lines 268-279): some candidate
field of the document, lowercased, equals the identifier. -/
def matchesId (d : TSDoc) (oid : String) : Bool :=
  [lowerOr d.objectID, lowerOr d.object_id, lowerOr d.id, lowerOr d.mpn,
   lowerOr d.manufacturer_part_number, lowerOr d.vendor_mpn, lowerOr d.sku,
   lowerOr d.mpn_normalized].any (· == oid)

/-- Per-identifier resolution (part_006 lines 267-284): use the matching
batch hit when it carries a document, else the fallback lookup. -/
def resolveId (b : Backend) (qb : String) (hits : List THit) (oid : String) :
    Product :=
  match hits.find? (fun h => matchesId (h.document.getD emptyDoc) oid) with
  | some h =>
    match h.document with
    | some d => mapRecord d
    | none => fallbackLookup b qb oid
  | none => fallbackLookup b qb oid

/-- Embedding of the `typesense_search` tool call of src/unnamed/part_006
(lines 135-304).  `client = none` models a null client (missing host or
key); the environment-supplied `query_by` list is `envQB`.  A thrown
backend error anywhere degrades exactly as the source's try/catch
structure dictates. -/
def tsSearch006 (client : Option Backend) (envQB : List String)
    (objectID : Option String) (objectIDs : Option (List String))
    (keywords : Option String) (_category : Option String) : List Product :=
  let ids := dedupIds objectIDs objectID
  match client with
  | none => []
  | some b =>
    if ids ≠ [] then
      let qb := queryByStr envQB
      let hits := batchHitsLoop b qb ids.length [] (candFilters ids)
      ids.map (resolveId b qb hits)
    else
      match keywords with
      | some k =>
        if jsTrim k ≠ "" then
          match b { q := jsTrim k, query_by := queryByStr envQB,
                    per_page := 20, filter_by := none } with
          | some hits2 => hits2.map (fun h => mapRecord (h.document.getD emptyDoc))
          | none => []
        else []
      | none => []

example :
    dedupIds (some ["KL-1", " kl-1", "AB"]) (some "ab") = ["kl-1", "ab"] := by
  decide
example :
    tsSearch006 none [] (some "A") none none none = [] := by
  decide

/-- How one entry of the identifier path's output may arise: from a batch
hit whose document matched the identifier on a candidate field, from a
per-identifier fallback query's first hit, or as the synthesized
placeholder for the identifier. -/
def ResolutionOf (b : Backend) (qb : String) (hits : List THit)
    (oid : String) (e : Product) : Prop :=
  (∃ h ∈ hits, ∃ d, h.document = some d ∧ matchesId d oid = true ∧
    e = mapRecord d)
  ∨ (∃ f ∈ fallbackFields, ∃ hs h d, b (fbQuery qb f oid) = some hs ∧
      hs.head? = some h ∧ h.document = some d ∧ e = mapRecord d)
  ∨ e = mapRecord (placeholderDoc oid)

lemma fallbackLoop_cases (b : Backend) (qb oid : String) (fs : List String) :
    (∃ f ∈ fs, ∃ hs h d, b (fbQuery qb f oid) = some hs ∧
      hs.head? = some h ∧ h.document = some d ∧
      fallbackLoop b qb oid fs = mapRecord d)
    ∨ fallbackLoop b qb oid fs = mapRecord (placeholderDoc oid) := by
  induction fs with
  | nil => exact Or.inr rfl
  | cons f rest ih =>
    by_cases hb : ∃ hs, b (fbQuery qb f oid) = some hs
    · obtain ⟨hs, hb⟩ := hb
      match hh : hs.head? with
      | some h =>
        match hd : h.document with
        | some d =>
          exact Or.inl ⟨f, List.mem_cons_self f rest, hs, h, d, hb, hh, hd,
            by simp [fallbackLoop, hb, hh, hd]⟩
        | none =>
          have heq : fallbackLoop b qb oid (f :: rest)
              = fallbackLoop b qb oid rest := by
            simp [fallbackLoop, hb, hh, hd]
          rcases ih with ⟨f2, hf2, rest2⟩ | hpl
          · exact Or.inl ⟨f2, List.mem_cons_of_mem f hf2, by rw [heq]; exact rest2⟩
          · exact Or.inr (heq.trans hpl)
      | none =>
        have heq : fallbackLoop b qb oid (f :: rest)
            = fallbackLoop b qb oid rest := by
          simp [fallbackLoop, hb, hh]
        rcases ih with ⟨f2, hf2, rest2⟩ | hpl
        · exact Or.inl ⟨f2, List.mem_cons_of_mem f hf2, by rw [heq]; exact rest2⟩
        · exact Or.inr (heq.trans hpl)
    · have hb' : b (fbQuery qb f oid) = none := by
        cases h : b (fbQuery qb f oid) with
        | none => rfl
        | some hs => exact absurd ⟨hs, h⟩ hb
      have heq : fallbackLoop b qb oid (f :: rest)
          = fallbackLoop b qb oid rest := by
        simp [fallbackLoop, hb']
      rcases ih with ⟨f2, hf2, rest2⟩ | hpl
      · exact Or.inl ⟨f2, List.mem_cons_of_mem f hf2, by rw [heq]; exact rest2⟩
      · exact Or.inr (heq.trans hpl)

lemma fallbackLookup_cases (b : Backend) (qb oid : String) :
    (∃ f ∈ fallbackFields, ∃ hs h d, b (fbQuery qb f oid) = some hs ∧
      hs.head? = some h ∧ h.document = some d ∧
      fallbackLookup b qb oid = mapRecord d)
    ∨ fallbackLookup b qb oid = mapRecord (placeholderDoc oid) := by
  simpa [fallbackLookup] using fallbackLoop_cases b qb oid fallbackFields

lemma resolveId_resolution (b : Backend) (qb : String) (hits : List THit)
    (oid : String) :
    ResolutionOf b qb hits oid (resolveId b qb hits oid) := by
  by_cases hex : ∃ h,
      hits.find? (fun h => matchesId (h.document.getD emptyDoc) oid) = some h
  · obtain ⟨h, hf⟩ := hex
    have hmem : h ∈ hits := List.mem_of_find?_eq_some hf
    have hp : matchesId (h.document.getD emptyDoc) oid = true := by
      simpa using List.find?_some hf
    cases hd : h.document with
    | some d =>
      have he : resolveId b qb hits oid = mapRecord d := by
        simp [resolveId, hf, hd]
      exact Or.inl ⟨h, hmem, d, hd, by simpa [hd] using hp, he⟩
    | none =>
      have he : resolveId b qb hits oid = fallbackLookup b qb oid := by
        simp [resolveId, hf, hd]
      rw [he]
      rcases fallbackLookup_cases b qb oid with hcase | hpl
      · exact Or.inr (Or.inl hcase)
      · exact Or.inr (Or.inr hpl)
  · have hf : hits.find?
        (fun h => matchesId (h.document.getD emptyDoc) oid) = none := by
      cases hcase : hits.find?
          (fun h => matchesId (h.document.getD emptyDoc) oid) with
      | none => rfl
      | some h => exact absurd ⟨h, hcase⟩ hex
    have he : resolveId b qb hits oid = fallbackLookup b qb oid := by
      simp [resolveId, hf]
    rw [he]
    rcases fallbackLookup_cases b qb oid with hcase | hpl
    · exact Or.inr (Or.inl hcase)
    · exact Or.inr (Or.inr hpl)

lemma batchHitsLoop_allFail (b : Backend) (qb : String) (pp : Nat)
    (hb : ∀ q, b q = none) (acc : List THit) (fs : List String) :
    batchHitsLoop b qb pp acc fs = acc := by
  induction fs generalizing acc with
  | nil => rfl
  | cons f rest ih => simp [batchHitsLoop, hb, ih]

lemma fallbackLoop_allFail (b : Backend) (qb oid : String)
    (hb : ∀ q, b q = none) (fs : List String) :
    fallbackLoop b qb oid fs = mapRecord (placeholderDoc oid) := by
  induction fs with
  | nil => rfl
  | cons f rest ih => simp [fallbackLoop, hb, ih]

lemma mapRecord_placeholder_objectID (oid : String) :
    (mapRecord (placeholderDoc oid)).objectID = oid := by
  by_cases h : oid = "" <;> simp [mapRecord, placeholderDoc, firstS, jsT, h]

lemma resolveId_allFail (b : Backend) (qb oid : String)
    (hb : ∀ q, b q = none) :
    resolveId b qb [] oid = mapRecord (placeholderDoc oid) := by
  simp [resolveId, fallbackLookup, fallbackLoop_allFail b qb oid hb]

/-- A backend on which every query throws. -/
def failBackend : Backend := fun _ => none

lemma forallTwo_map_self {α β : Type} (f : α → β) (R : β → α → Prop)
    (l : List α) (h : ∀ a ∈ l, R (f a) a) :
    List.Forall₂ R (l.map f) l := by
  induction l with
  | nil => exact List.Forall₂.nil
  | cons a t ih =>
    exact List.Forall₂.cons (h a (List.mem_cons_self a t))
      (ih (fun x hx => h x (List.mem_cons_of_mem a hx)))

/-- C1 (amended): for the identifier path of `typesense_search`
(src/unnamed/part_006), **when a backend client is configured**, the
output has exactly one entry per deduplicated (trimmed, lowercased,
first-seen-order) identifier, in input order; each entry is either the
canonical mapping of a backend document — a batch hit that matched the
identifier case-insensitively on one of the candidate identifier fields,
or the first hit of a per-identifier fallback query — or the synthesized
placeholder record, whose `objectID` is exactly the deduplicated
identifier; in particular, when the backend resolves zero identifiers
(every query throws), every entry is the placeholder for its identifier.
(The unamended claim fails when no client is configured: the tool then
returns an empty list, see the counterexample.) -/
theorem C1_identifier_path_cardinality_amended (b : Backend)
    (envQB : List String) (objectID : Option String)
    (objectIDs : Option (List String)) (kw cat : Option String)
    (hids : dedupIds objectIDs objectID ≠ []) :
    (tsSearch006 (some b) envQB objectID objectIDs kw cat).length
      = (dedupIds objectIDs objectID).length
    ∧ List.Forall₂
        (fun e oid => ResolutionOf b (queryByStr envQB)
          (batchHitsLoop b (queryByStr envQB)
            (dedupIds objectIDs objectID).length []
            (candFilters (dedupIds objectIDs objectID))) oid e)
        (tsSearch006 (some b) envQB objectID objectIDs kw cat)
        (dedupIds objectIDs objectID)
    ∧ ((∀ q, b q = none) →
        tsSearch006 (some b) envQB objectID objectIDs kw cat
          = (dedupIds objectIDs objectID).map
              (fun oid => mapRecord (placeholderDoc oid)))
    ∧ (∀ oid, (mapRecord (placeholderDoc oid)).objectID = oid) := by
  have hout : tsSearch006 (some b) envQB objectID objectIDs kw cat
      = (dedupIds objectIDs objectID).map
          (resolveId b (queryByStr envQB)
            (batchHitsLoop b (queryByStr envQB)
              (dedupIds objectIDs objectID).length []
              (candFilters (dedupIds objectIDs objectID)))) := by
    simp [tsSearch006, hids]
  refine ⟨?_, ?_, ?_, mapRecord_placeholder_objectID⟩
  · rw [hout, List.length_map]
  · rw [hout]
    exact forallTwo_map_self _ _ _
      (fun oid _ => resolveId_resolution b _ _ oid)
  · intro hb
    rw [hout, batchHitsLoop_allFail b _ _ hb]
    exact List.map_congr_left (fun oid _ => resolveId_allFail b _ oid hb)

/-- C1 counterexample: with no backend client configured (missing host or
key), a call supplied with one identifier returns an empty list, so the
output cardinality does not equal the deduplicated input cardinality. -/
theorem C1_counterexample :
    (tsSearch006 none [] (some "A") none none none).length
      ≠ (dedupIds none (some "A")).length := by
  decide

theorem C1_identifier_path_cardinality_amended_witness :
    tsSearch006 (some failBackend) [] (some "KL4066IAVFS") none none none
      = [mapRecord (placeholderDoc "kl4066iavfs")]
    ∧ (mapRecord (placeholderDoc "kl4066iavfs")).objectID
      = "kl4066iavfs" := by
  have h := C1_identifier_path_cardinality_amended failBackend []
    (some "KL4066IAVFS") none none none (by decide)
  refine ⟨?_, h.2.2.2 "kl4066iavfs"⟩
  have h3 := h.2.2.1 (fun _ => rfl)
  rw [h3]
  decide

/-- C4 (frame): feeding any `typesense_search` output through `qiq_scoring`
preserves every entry — the result is a permutation of the scored input,
of equal length, and scoring an entry changes only the `price` field
(numerically coerced) and the added `score` field; every other field is
unchanged. -/
theorem C4_scoring_preserves_search_output (client : Option Backend)
    (envQB : List String) (objectID : Option String)
    (objectIDs : Option (List String)) (kw cat : Option String)
    (ctx : Option Unit) :
    (qiqScoringCall
        (some (.arr (tsSearch006 client envQB objectID objectIDs kw cat)))
        ctx).Perm
      ((tsSearch006 client envQB objectID objectIDs kw cat).map
        scoreProduct)
    ∧ (qiqScoringCall
        (some (.arr (tsSearch006 client envQB objectID objectIDs kw cat)))
        ctx).length
      = (tsSearch006 client envQB objectID objectIDs kw cat).length
    ∧ (∀ p ∈ tsSearch006 client envQB objectID objectIDs kw cat,
        (scoreProduct p).objectID = p.objectID
        ∧ (scoreProduct p).name = p.name
        ∧ (scoreProduct p).brand = p.brand
        ∧ (scoreProduct p).item_type = p.item_type
        ∧ (scoreProduct p).category = p.category
        ∧ (scoreProduct p).list_price = p.list_price
        ∧ (scoreProduct p).availability = p.availability
        ∧ (scoreProduct p).image = p.image
        ∧ (scoreProduct p).spec_sheet = p.spec_sheet
        ∧ (scoreProduct p).url = p.url
        ∧ (scoreProduct p).price = .num (coercePrice p.price)
        ∧ (scoreProduct p).score = some (jsScore (coercePrice p.price))) := by
  have hperm : (qiqScoringCall
      (some (.arr (tsSearch006 client envQB objectID objectIDs kw cat)))
      ctx).Perm
      ((tsSearch006 client envQB objectID objectIDs kw cat).map
        scoreProduct) := List.mergeSort_perm _ _
  refine ⟨hperm, ?_, ?_⟩
  · rw [hperm.length_eq, List.length_map]
  · intro p _
    exact ⟨rfl, rfl, rfl, rfl, rfl, rfl, rfl, rfl, rfl, rfl, rfl, rfl⟩

theorem C4_scoring_preserves_search_output_witness :
    (qiqScoringCall
        (some (.arr (tsSearch006 (some failBackend) [] (some "X") none none
          none))) none).Perm
      ((tsSearch006 (some failBackend) [] (some "X") none none none).map
        scoreProduct)
    ∧ (scoreProduct (mapRecord (placeholderDoc "x"))).objectID
      = (mapRecord (placeholderDoc "x")).objectID := by
  have h := C4_scoring_preserves_search_output (some failBackend) []
    (some "X") none none none none
  refine ⟨h.1, (h.2.2 (mapRecord (placeholderDoc "x")) ?_).1⟩
  decide

/-- C10: a `qiq_scoring` call whose `products` argument is missing or is
any non-array value returns `{ products: [] }` (the input is coerced to an
empty list; no error is raised). -/
theorem C10_qiq_scoring_non_array (ctx : Option Unit) :
    qiqScoringCall none ctx = [] ∧
    qiqScoringCall (some .nonArray) ctx = [] := by
  constructor <;> simp [qiqScoringCall, List.mergeSort_nil]

/-- A backend document as seen by the sku-shaped `typesense_search` of
src/src/mcp.mjs (lines 211-218). -/
structure MDoc where
  sku : Option String := none
  id : Option String := none
  name : Option String := none
  title : Option String := none
  brand : Option String := none
  vendor : Option String := none
  price : JSPrice := .other .nan
deriving DecidableEq, Repr

/-- One hit of a search response for the mjs variant. -/
structure MHit where
  document : Option MDoc := none
deriving DecidableEq, Repr

/-- A schema field from `collections(c).retrieve()`. -/
structure MField where
  name : Option String := none
  type : Option String := none
deriving DecidableEq, Repr

/-- The mjs variant's backend: a search oracle (`none` = thrown error,
with `result.hits || []` folded into the returned list) and the schema
retrieval oracle (`none` = thrown error). -/
structure MBackend where
  search : SearchQuery → Option (List MHit)
  schemaFields : Option (List MField)

/-- Output product of the mjs `typesense_search` (sku shape). -/
structure MProduct where
  sku : String
  name : String
  brand : String
  price : JNum
  quantity : JNum
deriving DecidableEq, Repr

/-- `const qty = typeof quantity === 'number' && Number.isFinite(quantity)
&& quantity > 0 ? quantity : 1` (src/src/mcp.mjs line 155). -/
def qtyOf (quantity : Option JNum) : JNum :=
  match quantity with
  | some (.fin q) => if 0 < q then .fin q else .fin 1
  | _ => .fin 1

/-- Query-field resolution of src/src/mcp.mjs lines 167-185: keep a truthy
cache; otherwise honor a truthy sanitized env override; otherwise discover
string-typed schema fields, falling back to the fixed default set. -/
def resolveQueryBy (cached : Option String) (envQB : Option String)
    (be : MBackend) : String :=
  match jsT cached with
  | some qb => qb
  | none =>
    let envClean := match envQB with
      | some e => jsT (some (sanitize e))
      | none => none
    match envClean with
    | some s => s
    | none =>
      match be.schemaFields with
      | some fields =>
        let strFields := (fields.filter
          (fun f => f.name.isSome && ((f.type.getD "").startsWith "string")))
          |>.filterMap (·.name)
        if strFields ≠ [] then String.intercalate "," strFields
        else "name,description,brand,category"
      | none => "name,description,brand,category"

/-- The query issued by `attempt(queryBy)` (src/src/mcp.mjs lines 188-198):
`q` is the raw keywords when truthy after trimming, else `'*'`; a truthy
category adds an exact filter. -/
def mjsQuery (keywords category qbv : String) : SearchQuery :=
  { q := if keywords ≠ "" ∧ jsTrim keywords ≠ "" then keywords else "*"
    query_by := qbv
    per_page := 25
    filter_by := if category ≠ ""
      then some ("category:=" ++ jsonQuote category) else none }

/-- Normalization of one hit (src/src/mcp.mjs lines 211-218). -/
def mjsMapHit (category : String) (qty : JNum) (idx : Nat) (h : MHit) :
    MProduct :=
  let doc := h.document.getD {}
  { sku := match jsT doc.sku with
      | some s => s
      | none => match jsT doc.id with
        | some s => s
        | none => "TS-" ++ toString (idx + 1)
    name := match jsT doc.name with
      | some s => s
      | none => match jsT doc.title with
        | some s => s
        | none => category ++ " item"
    brand := match jsT doc.brand with
      | some s => s
      | none => match jsT doc.vendor with
        | some s => s
        | none => "Unknown"
    price := coercePrice doc.price
    quantity := qty }

/-- The three mock products returned when Typesense is not configured
(src/src/mcp.mjs lines 156-164). -/
def mockProducts (category keywords : String) (qty : JNum) :
    List MProduct :=
  [{ sku := "MOCK-001", name := category ++ " basic - " ++ keywords,
     brand := "Generic", price := .fin 10, quantity := qty },
   { sku := "MOCK-002", name := category ++ " standard - " ++ keywords,
     brand := "Generic", price := .fin 20, quantity := qty },
   { sku := "MOCK-003", name := category ++ " pro - " ++ keywords,
     brand := "Generic", price := .fin 30, quantity := qty }]

/-- The single fallback product returned when every attempt failed
(src/src/mcp.mjs lines 220-227). -/
def fallbackProducts (category keywords : String) (qty : JNum) :
    List MProduct :=
  [{ sku := "FALLBACK-001", name := category ++ " fallback - " ++ keywords,
     brand := "Generic", price := .fin 15, quantity := qty }]

/-- Embedding of the `typesense_search` tool call of src/src/mcp.mjs
(lines 134-229).  Returns the updated `cachedQueryBy` module state and the
products.  `client = none` models a null Typesense client. -/
def tsSearchMjs (client : Option MBackend) (collection : Option String)
    (envQB : Option String) (cached : Option String)
    (category keywords : String) (quantity : Option JNum) :
    Option String × List MProduct :=
  let qty := qtyOf quantity
  match client with
  | none => (cached, mockProducts category keywords qty)
  | some be =>
    match jsT collection with
    | none => (cached, mockProducts category keywords qty)
    | some _ =>
      let qb := resolveQueryBy cached envQB be
      let attempt := fun qbv => be.search (mjsQuery keywords category qbv)
      let result := match attempt qb with
        | some r => some r
        | none =>
          match attempt "name" with
          | some r => some r
          | none => attempt "name,description,brand,category"
      match result with
      | some hits =>
        (some qb, hits.mapIdx (fun idx h => mjsMapHit category qty idx h))
      | none => (some qb, fallbackProducts category keywords qty)

/-- A fully failing mjs backend: every search throws and schema retrieval
throws. -/
def failMBackend : MBackend :=
  { search := fun _ => none, schemaFields := none }

example :
    (tsSearchMjs (some failMBackend) (some "c") none none "cat" "kw"
      none).2 = fallbackProducts "cat" "kw" (.fin 1) := rfl

/-- C2 counterexample: a keyword-driven call of the src/src/mcp.mjs
`typesense_search` on a backend where the free-text attempt and both
retries all fail does **not** return an empty products list — it returns
the one-element `FALLBACK-001` mock list. -/
theorem C2_counterexample :
    (tsSearchMjs (some failMBackend) (some "c") none none "cat" "kw"
      none).2 ≠ [] := by
  decide

/-- C2 (amended): for a keyword-driven call (the src/src/mcp.mjs variant
takes only keywords/category) in which the query against the resolved
field list fails, the retry against the minimal single-field query fails,
and the retry against the full default field set also fails, the tool
returns the one-element `FALLBACK-001` mock product list (not an empty
list) and never propagates the failure. -/
theorem C2_keyword_failure_fallback_amended (be : MBackend)
    (collection : Option String) (envQB cached : Option String)
    (category keywords : String) (quantity : Option JNum)
    (hcoll : jsT collection ≠ none)
    (h1 : be.search (mjsQuery keywords category
      (resolveQueryBy cached envQB be)) = none)
    (h2 : be.search (mjsQuery keywords category "name") = none)
    (h3 : be.search (mjsQuery keywords category
      "name,description,brand,category") = none) :
    (tsSearchMjs (some be) collection envQB cached category keywords
      quantity).2
      = fallbackProducts category keywords (qtyOf quantity) := by
  obtain ⟨c, hc⟩ : ∃ c, jsT collection = some c :=
    Option.ne_none_iff_exists'.mp hcoll
  simp [tsSearchMjs, hc, h1, h2, h3]

theorem C2_keyword_failure_fallback_amended_witness :
    jsT (some "c") ≠ none ∧
    (tsSearchMjs (some failMBackend) (some "c") none none "cat" "kw"
      none).2 = fallbackProducts "cat" "kw" (qtyOf none) := by
  exact ⟨by decide,
    C2_keyword_failure_fallback_amended failMBackend (some "c") none none
      "cat" "kw" none (by decide) rfl rfl rfl⟩

/-- The rebuilt Typesense client handle: the node/key data a fresh
`new Typesense.Client(...)` captures (src/unnamed/part_005 lines 398-418). -/
structure TSClientCfg where
  host : String
  port : JNum
  protocol : String
  apiKey : String
deriving DecidableEq, Repr

/-- Module state of the part_005 adapter configuration: the mutable
`TS_*` bindings, the client handle, the cached query-field list, and the
environment variables the config tool reads or writes. -/
structure TSConfigState where
  host : Option String
  protocol : Option String
  port : Option JNum
  apiKey : Option String
  collection : Option String
  tsClient : Option TSClientCfg
  cachedQueryBy : Option String
  envQueryBy : Option String
  envQueryByWeights : Option String
deriving DecidableEq, Repr

/-- `rebuildTypesenseClient()` (part_005 lines 398-418): always discard
the old handle, then build a fresh client iff host, protocol and key are
truthy and the port is a number that is not NaN. -/
def buildClient (host protocol apiKey : Option String) (port : Option JNum) :
    Option TSClientCfg :=
  match jsT host, jsT protocol, jsT apiKey, port with
  | some h, some p, some k, some v =>
    if v ≠ .nan then some { host := h, port := v, protocol := p, apiKey := k }
    else none
  | _, _, _, _ => none

/-- The partial configuration patch accepted by `typesense_config_set`
(part_005 lines 655-668).  A `port` value models the JS argument only when
it is a number; any non-number port is `none` (the code ignores it). -/
structure ConfigPatch where
  host : Option String := none
  protocol : Option String := none
  port : Option JNum := none
  apiKey : Option String := none
  collection : Option String := none
  query_by : Option String := none
  query_by_weights : Option String := none
deriving DecidableEq, Repr

/-- The result record of `typesense_config_set` (part_005 lines 704-713):
note it carries only the key's length, never the key. -/
structure ConfigSetResult where
  applied : Bool
  host : String
  protocol : String
  port : JNum
  collection : String
  query_by : String
  query_by_weights : String
  apiKeyLength : Nat
deriving DecidableEq, Repr

/-- `if (x) TS_X = sanitize(x)`: apply a truthy patch field over the
current value. -/
def applyIfTruthy (patch cur : Option String) : Option String :=
  match jsT patch with
  | some v => some (sanitize v)
  | none => cur

/-- Embedding of the `typesense_config_set` tool call (src/unnamed/part_005
lines 685-719). -/
def typesenseConfigSet (st : TSConfigState) (p : ConfigPatch) :
    TSConfigState × ConfigSetResult :=
  let host2 := applyIfTruthy p.host st.host
  let protocol2 := applyIfTruthy p.protocol st.protocol
  let port2 := match p.port with
    | some v => if v.isFinite then some v else st.port
    | none => st.port
  let apiKey2 := applyIfTruthy p.apiKey st.apiKey
  let collection2 := applyIfTruthy p.collection st.collection
  let cached2 := match jsT p.query_by with
    | some v => some (sanitize v)
    | none => st.cachedQueryBy
  let weights2 := match jsT p.query_by_weights with
    | some v => some (sanitize v)
    | none => st.envQueryByWeights
  let client2 := buildClient host2 protocol2 apiKey2 port2
  let st2 : TSConfigState :=
    { host := host2, protocol := protocol2, port := port2,
      apiKey := apiKey2, collection := collection2, tsClient := client2,
      cachedQueryBy := cached2, envQueryBy := st.envQueryBy,
      envQueryByWeights := weights2 }
  let res : ConfigSetResult :=
    { applied := true
      host := (jsT host2).getD ""
      protocol := (jsT protocol2).getD ""
      port := port2.getD (.fin 0)
      collection := (jsT collection2).getD ""
      query_by := match jsT cached2 with
        | some v => v
        | none => match st.envQueryBy with
          | some e => (jsT (some (sanitize e))).getD ""
          | none => ""
      query_by_weights := match weights2 with
        | some w => (jsT (some (sanitize w))).getD ""
        | none => ""
      apiKeyLength := match apiKey2 with
        | some k => k.length
        | none => 0 }
  (st2, res)

/-- A concrete configured state with a populated query-field cache. -/
def stExample : TSConfigState :=
  { host := some "ts.example.com", protocol := some "https",
    port := some (.fin 443), apiKey := some "secret-key",
    collection := some "products",
    tsClient := some ⟨"ts.example.com", .fin 443, "https", "secret-key"⟩,
    cachedQueryBy := some "name,brand", envQueryBy := none,
    envQueryByWeights := none }

/-- C5 counterexample: reconfiguring only the collection name does **not**
discard the cached query-field list — `typesense_config_set` resets
`cachedQueryBy` only when a `query_by` override is supplied. -/
theorem C5_counterexample :
    ((typesenseConfigSet stExample
      { collection := some "products2" }).1).cachedQueryBy
      = some "name,brand" := by
  decide

/-- C5 (amended): `typesense_config_set` applies exactly the supplied
(truthy) patch fields over the current configuration; the backend client
handle is unconditionally discarded and rebuilt from the patched
configuration alone (independently of the previous handle); the cached
query-field list, however, is replaced **only** when a `query_by` override
is supplied and is retained otherwise (so reconfiguring only the
collection does not invalidate it — see the counterexample); and the
result reports the API key only as a length. -/
theorem C5_config_set_amended (st : TSConfigState) (p : ConfigPatch) :
    (typesenseConfigSet st p).1.tsClient
      = buildClient (typesenseConfigSet st p).1.host
          (typesenseConfigSet st p).1.protocol
          (typesenseConfigSet st p).1.apiKey
          (typesenseConfigSet st p).1.port
    ∧ (∀ c : Option TSClientCfg,
        (typesenseConfigSet { st with tsClient := c } p).1.tsClient
          = (typesenseConfigSet st p).1.tsClient)
    ∧ (typesenseConfigSet st p).1.host = applyIfTruthy p.host st.host
    ∧ (typesenseConfigSet st p).1.protocol
      = applyIfTruthy p.protocol st.protocol
    ∧ (typesenseConfigSet st p).1.apiKey = applyIfTruthy p.apiKey st.apiKey
    ∧ (typesenseConfigSet st p).1.collection
      = applyIfTruthy p.collection st.collection
    ∧ (jsT p.query_by = none →
        (typesenseConfigSet st p).1.cachedQueryBy = st.cachedQueryBy)
    ∧ (∀ v, jsT p.query_by = some v →
        (typesenseConfigSet st p).1.cachedQueryBy = some (sanitize v))
    ∧ (typesenseConfigSet st p).2.apiKeyLength
      = (((typesenseConfigSet st p).1.apiKey).map String.length).getD 0
    ∧ (typesenseConfigSet st p).2.applied = true := by
  refine ⟨rfl, fun c => rfl, rfl, rfl, rfl, rfl, ?_, ?_, ?_, rfl⟩
  · intro hq
    simp [typesenseConfigSet, hq]
  · intro v hv
    simp [typesenseConfigSet, hv]
  · show (match applyIfTruthy p.apiKey st.apiKey with
      | some k => k.length
      | none => 0)
      = ((applyIfTruthy p.apiKey st.apiKey).map String.length).getD 0
    cases applyIfTruthy p.apiKey st.apiKey <;> rfl

theorem C5_config_set_amended_witness :
    (typesenseConfigSet stExample
      { query_by := some "desc" }).1.cachedQueryBy = some "desc"
    ∧ (typesenseConfigSet stExample
      { query_by := some "desc" }).2.apiKeyLength = 10 := by
  obtain ⟨h1, h2, h3, h4, h5, h6, h7, h8, h9, h10⟩ :=
    C5_config_set_amended stExample { query_by := some "desc" }
  constructor
  · have := h8 "desc" rfl
    rw [this]
    decide
  · rw [h9]
    decide

/-- A loosely-typed JS value in a string position: absent, a string, or
any non-string value (the dispatchers inspect such values only through
truthiness and `typeof`; JS stringification of a non-string value in an
error message is abstracted as "[value]"). -/
inductive JStrVal where
  | absent
  | str (s : String)
  | other
deriving DecidableEq, Repr

/-- Template-string rendering of a `JStrVal`. -/
def jsShow : JStrVal → String
  | .absent => "undefined"
  | .str s => s
  | .other => "[value]"

/-- The `arguments` object of a WebSocket `tools/call` (api/mcp.js ping
reads only `args?.message`). -/
structure WsArgs where
  message : JStrVal := .absent
deriving DecidableEq, Repr

/-- The `params` object of a JSON-RPC request. -/
structure RpcParams where
  name : JStrVal := .absent
  arguments : Option WsArgs := none
deriving DecidableEq, Repr

/-- A parsed JSON-RPC request envelope. -/
structure RpcReq where
  id : Option Int := none
  method : JStrVal := .absent
  params : Option RpcParams := none
deriving DecidableEq, Repr

/-- `params?.name`. -/
def paramsName (req : RpcReq) : JStrVal :=
  match req.params with
  | some p => p.name
  | none => .absent

/-- Result payloads that the embedded dispatchers can produce. -/
inductive RpcPayload where
  | initializeInfo (serverName : String)
  | toolsList (names : List String)
  | toolOutput (payload : String)
  | hostOutcome (memberName : String)
deriving DecidableEq, Repr

/-- A JSON-RPC response: exactly one of result or error. -/
inductive RpcResp where
  | result (id : Option Int) (payload : RpcPayload)
  | error (id : Option Int) (code : Int) (message : String)
      (data : Option String)
deriving DecidableEq, Repr

/-- Embedding of `handleJsonRpc` from src/src/mcp.mjs lines 42-74.
`registered` is the list of registered tool names and `call` the tool
execution oracle (`Except.error` = the tool call rejected/threw).  The
second component lists the tools actually invoked.  Note: this variant
has no `method` type check — a missing or non-string method falls into
the `switch` default. -/
def handleJsonRpcMjs (registered : List String)
    (call : String → Except String String) (req : RpcReq) :
    RpcResp × List String :=
  match req.method with
  | .str "initialize" =>
    (.result req.id (.initializeInfo "MCP_HTTP"), [])
  | .str "tools/list" => (.result req.id (.toolsList registered), [])
  | .str "tools/call" =>
    match paramsName req with
    | .str s =>
      if s = "" then
        (.error req.id (-32601) ("Method not found: tool " ++ s) none, [])
      else if s ∈ registered then
        match call s with
        | .ok r => (.result req.id (.toolOutput r), [s])
        | .error _ =>
          (.error req.id (-32000) "Tool invocation error" none, [s])
      else
        (.error req.id (-32601) ("Method not found: tool " ++ s) none, [])
    | n => (.error req.id (-32601)
        ("Method not found: tool " ++ jsShow n) none, [])
  | m => (.error req.id (-32601) ("Method not found: " ++ jsShow m) none, [])

/-- Embedding of `handleJsonRpc` from src/unnamed/part_006 lines 31-74:
identical to the mjs variant except that a falsy or non-string `method`
is rejected up front with InvalidRequest, and a thrown tool error carries
its message as auxiliary `data`.  (The dead leftover identifier
normalization lines 54-62 of the source block bind values that are never
used and are omitted.) -/
def handleJsonRpc006 (registered : List String)
    (call : String → Except String String) (req : RpcReq) :
    RpcResp × List String :=
  match req.method with
  | .str s =>
    if s = "" then
      (.error req.id (-32600) "Invalid Request: method missing" none, [])
    else if s = "initialize" then
      (.result req.id (.initializeInfo "MCP_HTTP"), [])
    else if s = "tools/list" then
      (.result req.id (.toolsList registered), [])
    else if s = "tools/call" then
      match paramsName req with
      | .str n =>
        if n = "" then
          (.error req.id (-32601) ("Method not found: tool " ++ n) none, [])
        else if n ∈ registered then
          match call n with
          | .ok r => (.result req.id (.toolOutput r), [n])
          | .error msg =>
            (.error req.id (-32000) "Tool invocation error" (some msg), [n])
        else
          (.error req.id (-32601) ("Method not found: tool " ++ n) none, [])
      | n => (.error req.id (-32601)
          ("Method not found: tool " ++ jsShow n) none, [])
    else
      (.error req.id (-32601) ("Method not found: " ++ s) none, [])
  | _ =>
    (.error req.id (-32600) "Invalid Request: method missing" none, [])

/-- The `ping` tool of api/mcp.js (lines 37-40):
`pong: ` followed by the message when it is a string, else the empty
string.  It never throws. -/
def wsPing (m : JStrVal) : String :=
  "pong: " ++ (match m with | .str t => t | _ => "")

/-- `args?.message` of a WebSocket `tools/call`. -/
def wsArgMessage (req : RpcReq) : JStrVal :=
  match req.params with
  | some p =>
    match p.arguments with
    | some a => a.message
    | none => .absent
  | none => .absent

/-- The property names every plain JS object inherits from
`Object.prototype`.  The api/mcp.js registry is an object literal and its
lookup is `tools[name]`, which walks the prototype chain: for each of
these names the lookup yields a truthy inherited value, so the
`if (!tool)` branch (-32601) is skipped. -/
def objectProtoProps : List String :=
  ["constructor", "toString", "toLocaleString", "valueOf",
   "hasOwnProperty", "isPrototypeOf", "propertyIsEnumerable",
   "__defineGetter__", "__defineSetter__", "__lookupGetter__",
   "__lookupSetter__", "__proto__"]

/-- Embedding of the WebSocket message handler of api/mcp.js lines 76-158.
Its registry object holds exactly the `ping` tool (which never throws, so
its catch branch is unreachable), but the plain-object lookup
`tools[name]` also finds the inherited `Object.prototype` members: for a
name in `objectProtoProps`, `tool` is truthy and `tool.call(args || {})`
runs — the function-valued members return a host value and the others
(e.g. `__proto__`, whose value has no callable `call`) throw into the
catch, which answers with `makeResult(id, { content: [], isError: true })`.
Either way the handler produces a *result* response, abstracted here as
`hostOutcome name` since its value lives outside the program's data
model.  Second component: the registered tools invoked (an inherited host
member is not a registered tool). -/
def wsHandleMessage (req : RpcReq) : RpcResp × List String :=
  match req.method with
  | .str s =>
    if s = "" then
      (.error req.id (-32600) "Invalid Request: method missing" none, [])
    else if s = "initialize" then
      (.result req.id (.initializeInfo "QIQ_MCP"), [])
    else if s = "tools/list" ∨ s = "toolslist" then
      (.result req.id (.toolsList ["ping"]), [])
    else if s = "tools/call" ∨ s = "toolscall" then
      match paramsName req with
      | .str n =>
        if n = "" then
          (.error req.id (-32602) "Invalid params: name is required" none,
            [])
        else if n = "ping" then
          (.result req.id (.toolOutput (wsPing (wsArgMessage req))),
            ["ping"])
        else if n ∈ objectProtoProps then
          (.result req.id (.hostOutcome n), [])
        else
          (.error req.id (-32601) ("Method not found: tool " ++ n) none, [])
      | _ =>
        (.error req.id (-32602) "Invalid params: name is required" none, [])
    else
      (.error req.id (-32601) ("Method not found: " ++ s) none, [])
  | _ =>
    (.error req.id (-32600) "Invalid Request: method missing" none, [])

/-- A trivially succeeding tool-call oracle. -/
def okOracle : String → Except String String := fun _ => .ok "ok"

/-- C6 counterexample: in the api/mcp.js WebSocket handler, a `tools/call`
whose name is the non-empty, non-registered string `constructor` does
**not** get error -32601 — the plain-object lookup `tools["constructor"]`
finds the inherited `Object.prototype.constructor`, which is truthy, so
the handler invokes it and answers with a result response. -/
theorem C6_counterexample :
    (wsHandleMessage
      { id := some 5, method := .str "tools/call",
        params := some { name := .str "constructor" } }).1
      = .result (some 5) (.hostOutcome "constructor")
    ∧ "constructor" ≠ "" ∧ "constructor" ∉ ["ping"] := by
  refine ⟨rfl, by decide, by decide⟩

/-- C6 (amended): a `tools/call` whose `params.name` is a non-empty
string that is not a registered tool name yields error -32601 with no
registered tool invoked in the Map-based dispatchers (src/src/mcp.mjs and
src/unnamed/part_006), whose `tools.get(name)` sees only own entries; the
api/mcp.js WebSocket handler (registry: exactly `ping`) does so only for
names that are also not inherited `Object.prototype` member names — for
an inherited name (`constructor`, `toString`, ...) its plain-object
lookup is truthy and it answers with a result response instead, though
still without invoking any registered tool. -/
theorem C6_unknown_tool_amended (registered : List String)
    (call : String → Except String String) (req : RpcReq) (s : String)
    (hm : req.method = .str "tools/call") (hn : paramsName req = .str s)
    (hne : s ≠ "") (hreg : s ∉ registered) (hping : s ≠ "ping") :
    handleJsonRpcMjs registered call req
      = (.error req.id (-32601) ("Method not found: tool " ++ s) none, [])
    ∧ handleJsonRpc006 registered call req
      = (.error req.id (-32601) ("Method not found: tool " ++ s) none, [])
    ∧ (s ∉ objectProtoProps →
        wsHandleMessage req
          = (.error req.id (-32601) ("Method not found: tool " ++ s) none,
            []))
    ∧ (s ∈ objectProtoProps →
        wsHandleMessage req = (.result req.id (.hostOutcome s), [])) := by
  refine ⟨?_, ?_, ?_, ?_⟩
  · simp [handleJsonRpcMjs, hm, hn, hne, hreg]
  · simp [handleJsonRpc006, hm, hn, hne, hreg]
  · intro hproto
    simp [wsHandleMessage, hm, hn, hne, hping, hproto]
  · intro hproto
    simp [wsHandleMessage, hm, hn, hne, hping, hproto]

theorem C6_unknown_tool_amended_witness :
    (handleJsonRpcMjs ["ping", "typesense_search", "qiq_scoring",
      "typesense_health"] okOracle
      { id := some 7, method := .str "tools/call",
        params := some { name := .str "nosuch" } }
      = (.error (some 7) (-32601) "Method not found: tool nosuch" none,
        []))
    ∧ wsHandleMessage
        { id := some 7, method := .str "tools/call",
          params := some { name := .str "nosuch" } }
      = (.error (some 7) (-32601) "Method not found: tool nosuch" none,
        []) := by
  have h := C6_unknown_tool_amended ["ping", "typesense_search",
    "qiq_scoring", "typesense_health"] okOracle
    { id := some 7, method := .str "tools/call",
      params := some { name := .str "nosuch" } }
    "nosuch" rfl rfl (by decide) (by decide) (by decide)
  exact ⟨h.1, h.2.2.1 (by decide)⟩

/-- `params.name` is missing or not a non-empty string. -/
def nameInvalid (n : JStrVal) : Prop :=
  n = .absent ∨ n = .other ∨ n = .str ""

/-- C7 counterexample: in `handleJsonRpc` of src/src/mcp.mjs, a
`tools/call` with a missing name yields error code -32601 (the unknown
name message with `undefined`), not the claimed -32602. -/
theorem C7_counterexample :
    (handleJsonRpcMjs ["ping"] okOracle
      { id := some 1, method := .str "tools/call", params := some {} }).1
      = .error (some 1) (-32601) "Method not found: tool undefined" none
    ∧ (-32601 : Int) ≠ -32602 := by
  constructor
  · rfl
  · decide

/-- C7 (amended): a `tools/call` whose `params.name` is missing or not a
non-empty string gets error -32602 (InvalidParams) from the api/mcp.js
WebSocket dispatcher, but error -32601 from the `handleJsonRpc`
dispatchers of src/src/mcp.mjs and src/unnamed/part_006 (which treat the
falsy name as an unknown tool).  No tool is invoked in any case. -/
theorem C7_invalid_name_amended (registered : List String)
    (call : String → Except String String) (req : RpcReq)
    (hm : req.method = .str "tools/call")
    (hn : nameInvalid (paramsName req)) :
    wsHandleMessage req
      = (.error req.id (-32602) "Invalid params: name is required" none, [])
    ∧ handleJsonRpcMjs registered call req
      = (.error req.id (-32601)
          ("Method not found: tool " ++ jsShow (paramsName req)) none, [])
    ∧ handleJsonRpc006 registered call req
      = (.error req.id (-32601)
          ("Method not found: tool " ++ jsShow (paramsName req)) none,
        []) := by
  rcases hn with h | h | h <;>
    exact ⟨by simp [wsHandleMessage, hm, h, jsShow],
      by simp [handleJsonRpcMjs, hm, h, jsShow],
      by simp [handleJsonRpc006, hm, h, jsShow]⟩

theorem C7_invalid_name_amended_witness :
    wsHandleMessage
      { id := some 3, method := .str "tools/call", params := some {} }
      = (.error (some 3) (-32602) "Invalid params: name is required" none,
        []) :=
  (C7_invalid_name_amended ["ping"] okOracle
    { id := some 3, method := .str "tools/call", params := some {} }
    rfl (Or.inl rfl)).1

/-- The `method` field is missing or not a string. -/
def methodInvalid (m : JStrVal) : Prop :=
  m = .absent ∨ m = .other

/-- C8 counterexample: `handleJsonRpc` of src/src/mcp.mjs has no `method`
type check — a request with a missing method falls into the switch
default and yields -32601 (Method not found), not the claimed -32600. -/
theorem C8_counterexample :
    (handleJsonRpcMjs ["ping"] okOracle { id := some 2 }).1
      = .error (some 2) (-32601) "Method not found: undefined" none
    ∧ (-32601 : Int) ≠ -32600 := by
  constructor
  · rfl
  · decide

/-- C8 (amended): a parseable request whose `method` is missing or not a
string gets InvalidRequest (-32600) from the api/mcp.js WebSocket handler
and from the src/unnamed/part_006 dispatcher, but -32601
(`Method not found`) from the src/src/mcp.mjs dispatcher, which lacks the
method type check. -/
theorem C8_invalid_method_amended (registered : List String)
    (call : String → Except String String) (req : RpcReq)
    (hm : methodInvalid req.method) :
    wsHandleMessage req
      = (.error req.id (-32600) "Invalid Request: method missing" none, [])
    ∧ handleJsonRpc006 registered call req
      = (.error req.id (-32600) "Invalid Request: method missing" none, [])
    ∧ handleJsonRpcMjs registered call req
      = (.error req.id (-32601)
          ("Method not found: " ++ jsShow req.method) none, []) := by
  rcases hm with h | h <;>
    exact ⟨by simp [wsHandleMessage, h],
      by simp [handleJsonRpc006, h],
      by simp [handleJsonRpcMjs, h, jsShow]⟩

theorem C8_invalid_method_amended_witness :
    wsHandleMessage { id := some 4 }
      = (.error (some 4) (-32600) "Invalid Request: method missing" none,
        []) :=
  (C8_invalid_method_amended ["ping"] okOracle { id := some 4 }
    (Or.inl rfl)).1

/-- JS `header.split(',')` on a character list. -/
def splitChar (c : Char) : List Char → List (List Char)
  | [] => [[]]
  | x :: xs =>
    let r := splitChar c xs
    if x = c then [] :: r
    else
      match r with
      | h :: t => (x :: h) :: t
      | [] => [[x]]

/-- The subprotocols offered in the `sec-websocket-protocol` header:
split on commas, trim, drop empties (api/mcp.js lines 45-46). -/
def offeredProtocols (header : Option String) : List String :=
  ((splitChar ',' (header.getD "").data).map
    (fun cs => jsTrim (String.mk cs))).filter (· ≠ "")

/-- `negotiateSubprotocol` of api/mcp.js lines 44-50: `mcp` if offered,
else `jsonrpc` if offered, else no subprotocol (`undefined`). -/
def negotiateSubprotocol (header : Option String) : Option String :=
  if "mcp" ∈ offeredProtocols header then some "mcp"
  else if "jsonrpc" ∈ offeredProtocols header then some "jsonrpc"
  else none

/-- The connection-setup outcome of the api/mcp.js handler: a plain HTTP
response, or an accepted upgrade carrying the selected subprotocol (or
none, when `negotiateSubprotocol` returned `undefined` and
`server.protocol` was never assigned). -/
inductive WsSetup where
  | plain (status : Nat)
  | upgraded (status : Nat) (protocol : Option String)
deriving DecidableEq, Repr

/-- Connection setup of the api/mcp.js handler (lines 52-69 and 164):
a non-upgrade request gets 426; an upgrade request is always accepted
with status 101 and the negotiated subprotocol, if any. -/
def wsConnectionSetup (upgradeHeader protoHeader : Option String) :
    WsSetup :=
  if upgradeHeader ≠ some "websocket" then .plain 426
  else .upgraded 101 (negotiateSubprotocol protoHeader)

/-- C9 counterexample: a websocket upgrade offering only an unrecognized
subprotocol is accepted with **no** subprotocol selected — the code does
not default to `mcp` (`negotiateSubprotocol` returns `undefined` and the
protocol is never assigned). -/
theorem C9_counterexample :
    wsConnectionSetup (some "websocket") (some "foo")
      = .upgraded 101 none
    ∧ (none : Option String) ≠ some "mcp" := by
  constructor
  · rfl
  · decide

/-- C9 (amended): subprotocol selection picks `mcp` when offered, else
`jsonrpc` when offered, else selects **no** subprotocol (not `mcp`); and
an upgrade request is always accepted with status 101 whatever was
offered — a connection is never rejected for its subprotocols. -/
theorem C9_subprotocol_negotiation_amended (protoHeader : Option String) :
    ("mcp" ∈ offeredProtocols protoHeader →
      negotiateSubprotocol protoHeader = some "mcp")
    ∧ ("mcp" ∉ offeredProtocols protoHeader →
        "jsonrpc" ∈ offeredProtocols protoHeader →
        negotiateSubprotocol protoHeader = some "jsonrpc")
    ∧ ("mcp" ∉ offeredProtocols protoHeader →
        "jsonrpc" ∉ offeredProtocols protoHeader →
        negotiateSubprotocol protoHeader = none)
    ∧ wsConnectionSetup (some "websocket") protoHeader
      = .upgraded 101 (negotiateSubprotocol protoHeader)
    ∧ (∀ up, up ≠ some "websocket" →
        wsConnectionSetup up protoHeader = .plain 426) := by
  refine ⟨?_, ?_, ?_, ?_, ?_⟩
  · intro h
    simp [negotiateSubprotocol, h]
  · intro h1 h2
    simp [negotiateSubprotocol, h1, h2]
  · intro h1 h2
    simp [negotiateSubprotocol, h1, h2]
  · simp [wsConnectionSetup]
  · intro up hup
    simp [wsConnectionSetup, hup]

theorem C9_subprotocol_negotiation_amended_witness :
    negotiateSubprotocol (some "jsonrpc, foo") = some "jsonrpc"
    ∧ wsConnectionSetup (some "websocket") (some "jsonrpc, foo")
      = .upgraded 101 (negotiateSubprotocol (some "jsonrpc, foo")) := by
  have h := C9_subprotocol_negotiation_amended (some "jsonrpc, foo")
  exact ⟨h.2.1 (by decide) (by decide), h.2.2.2.1⟩
